import Mathlib

/-!
Verification of the Universal-Backend edge gateway (src/index.ts).

The development shallowly embeds the request-admission pipeline of the
gateway: the fixed-window rate limiter (function rateLimit, lines 23-41),
the authentication gate (requireAuth, lines 43-49), the error normalizer
(app.onError, lines 69-89), the built-in route handlers (catalog, player
stats, root, health, lines 95-136) and the linear startup sequence
(startServer and the optional subsystem imports, lines 91-156).

Time stamps are natural numbers (milliseconds, as Date.now produces),
string-keyed mutable maps become functions to Option, JavaScript
exceptions become Except, and the JSON bodies of responses are values of
a small inductive JSON type.
-/

namespace UB

/-- A JSON value, as far as the gateway's response bodies need. -/
inductive JValue where
  | str : String → JValue
  | num : Int → JValue
  | obj : List (String × JValue) → JValue

/-- An HTTP response: status code, JSON body, extra headers. -/
structure Response where
  status : Nat
  body : JValue
  headers : List (String × String)

/-- The field names of a JSON object body, in order; non-objects have none. -/
def bodyKeys : JValue → List String
  | .obj fields => fields.map Prod.fst
  | _ => []

/-- Look up a field of a JSON object body. -/
def bodyField (v : JValue) (k : String) : Option JValue :=
  match v with
  | .obj fields => (fields.find? (fun p => p.fst = k)).map Prod.snd
  | _ => none

/-- An incoming request: header lookup and path-parameter lookup, both by
name, exactly the two accessors the source uses (c.req.header and
c.req.param); a missing header or parameter is none, an empty-valued one
is some of the empty string. -/
structure Request where
  headerOf : String → Option String
  paramOf : String → Option String

/-- A client's rate record, one entry of rateLimitStore:
the running request count and the window expiry time (index.ts line 21). -/
structure RateRecord where
  count : Nat
  resetTime : Nat
deriving DecidableEq

/-- The rate-limit store: rateLimitStore, a map from client key to record. -/
def Store : Type := String → Option RateRecord

/-- Map.set on the store (index.ts line 30). -/
def storeSet (s : Store) (k : String) (v : RateRecord) : Store :=
  fun k' => if k' = k then some v else s k'

/-- The empty store (no client has a record yet). -/
def emptyStore : Store := fun _ => none

/-- The default window length of rateLimit: 15 minutes in milliseconds
(index.ts line 23). -/
def defaultWindowMs : Nat := 15 * 60 * 1000

/-- The default request cap of rateLimit per window (index.ts line 23). -/
def defaultMax : Nat := 100

/-- The fixed rejection response of the rate limiter (index.ts line 35). -/
def tooManyResp : Response :=
  ⟨429, .obj [("error", .str "Too many requests")], []⟩

/-- JavaScript a or-else b for an optional string a: none and the empty
string are falsy, so they fall through to b. -/
def jsOrStr (a : Option String) (b : String) : String :=
  match a with
  | none => b
  | some s => if s.isEmpty then b else s

/-- The client key of a request (index.ts line 25): the CF-Connecting-IP
header, or-else the X-Forwarded-For header, or-else the literal
anonymous, with JavaScript truthiness at every or-else. -/
def clientKey (req : Request) : String :=
  jsOrStr (req.headerOf "CF-Connecting-IP")
    (jsOrStr (req.headerOf "X-Forwarded-For") "anonymous")

/-- The core of the rateLimit middleware (index.ts lines 26-39), after the
client key has been computed: given the current time and the store,
either admit (none: next is called) or reject with the 429 response, and
return the updated store.
 - no record, or now past resetTime: fresh record with count 1, admit;
 - count at or above max: reject, store untouched;
 - otherwise: increment count, admit. -/
def rateLimitCheck (windowMs maxReq : Nat) (key : String) (now : Nat)
    (store : Store) : Option Response × Store :=
  match store key with
  | none => (none, storeSet store key ⟨1, now + windowMs⟩)
  | some record =>
      if record.resetTime < now then
        (none, storeSet store key ⟨1, now + windowMs⟩)
      else if maxReq ≤ record.count then
        (some tooManyResp, store)
      else
        (none, storeSet store key ⟨record.count + 1, record.resetTime⟩)

/-- The rateLimit middleware on a request: compute the client key
(index.ts line 25) and run the admission check on it. -/
def rateLimitMw (windowMs maxReq : Nat) (req : Request) (now : Nat)
    (store : Store) : Option Response × Store :=
  rateLimitCheck windowMs maxReq (clientKey req) now store

/-- Run a sequence of requests of one client through the rate limiter,
one arrival time per request, threading the store; collects each
request's outcome (none means admitted). -/
def runRequests (windowMs maxReq : Nat) (key : String) (times : List Nat)
    (store : Store) : List (Option Response) × Store :=
  match times with
  | [] => ([], store)
  | t :: ts =>
      let step := rateLimitCheck windowMs maxReq key t store
      let rest := runRequests windowMs maxReq key ts step.2
      (step.1 :: rest.1, rest.2)

/-- An HTTPException of the hono framework, as thrown by the route
handlers: an explicit status code plus a message. Any other thrown value
is an unstructured failure carrying only its (opaque) detail string. -/
structure HTTPException where
  status : Nat
  message : String
deriving DecidableEq

/-- A failure reaching app.onError: either a structured HTTPException or
any other thrown value, kept as an opaque detail string. -/
inductive AppFailure where
  | http : HTTPException → AppFailure
  | other : String → AppFailure

/-- The error normalizer app.onError (index.ts lines 69-89): an
HTTPException is rendered as the envelope with its own status and
message; anything else becomes a 500 with the fixed generic message.
The now argument is the ISO timestamp taken at response construction. -/
def onError (e : AppFailure) (now : String) : Response :=
  match e with
  | .http ex =>
      ⟨ex.status,
       .obj [("error", .str ex.message), ("status", .num ex.status),
             ("timestamp", .str now)], []⟩
  | .other _ =>
      ⟨500,
       .obj [("error", .str "Internal server error"), ("status", .num 500),
             ("timestamp", .str now)], []⟩

/-- The fixed rejection response of the auth gate (index.ts line 46). -/
def unauthorizedResp : Response :=
  ⟨401, .obj [("error", .str "Unauthorized")], []⟩

/-- JavaScript String.prototype.startsWith, as a character-level test:
the first string begins with the second. -/
def strStartsWith (s pre : String) : Bool :=
  pre.data.isPrefixOf s.data

/-- The test of requireAuth (index.ts lines 44-45): true exactly when the
Authorization header is present and its value starts with the literal
Bearer-and-space string. A missing header short-circuits the optional
chaining to undefined, hence fails; an empty value fails the test. -/
def requireAuthPass (auth : Option String) : Bool :=
  match auth with
  | none => false
  | some a => strStartsWith a "Bearer "

/-- The result a route handler produces: a response, or a thrown
HTTPException that app.onError will normalize. -/
def HandlerResult : Type := Except HTTPException Response

/-- The catalog handler body (index.ts lines 95-102): GenerateShop
yielding nothing throws a structured 500; data is returned verbatim with
the two fixed headers. -/
def catalogHandler (catalog : Option JValue) : HandlerResult :=
  match catalog with
  | none => .error ⟨500, "Failed to generate shop catalog"⟩
  | some data =>
      .ok ⟨200, data,
        [("Cache-Control", "public, max-age=300"),
         ("X-Content-Type-Options", "nosniff")]⟩

/-- The catalog route as a whole: the handler, with a thrown exception
normalized by app.onError. -/
def catalogRoute (catalog : Option JValue) (now : String) : Response :=
  match catalogHandler catalog with
  | .ok r => r
  | .error e => onError (.http e) now

/-- The player-stats handler body (index.ts lines 105-113), after the
auth gate: a missing, empty or shorter-than-3 playerId throws a
structured 400, otherwise the id is echoed with placeholder stats. -/
def statsHandler (playerId : Option String) (now : String) : HandlerResult :=
  match playerId with
  | none => .error ⟨400, "Invalid player ID"⟩
  | some pid =>
      if pid.isEmpty then .error ⟨400, "Invalid player ID"⟩
      else if pid.length < 3 then .error ⟨400, "Invalid player ID"⟩
      else
        .ok ⟨200,
          .obj [("playerId", .str pid),
                ("stats", .obj [("wins", .num 0), ("kills", .num 0),
                                ("matches", .num 0)]),
                ("lastUpdated", .str now)], []⟩

/-- The stats route after the gate has passed: the handler with thrown
exceptions normalized by app.onError. -/
def statsAfterGate (playerId : Option String) (now : String) : Response :=
  match statsHandler playerId now with
  | .ok r => r
  | .error e => onError (.http e) now

/-- The full player-stats route (index.ts line 104): requireAuth first,
then the handler, exceptions normalized by app.onError. -/
def statsRoute (req : Request) (now : String) : Response :=
  if requireAuthPass (req.headerOf "Authorization") then
    statsAfterGate (req.paramOf "playerId") now
  else unauthorizedResp

/-- The health handler (index.ts lines 130-136). -/
def healthHandler (now : String) : Response :=
  ⟨200,
   .obj [("status", .str "healthy"), ("database", .str "connected"),
         ("timestamp", .str now)], []⟩

/-- The observable steps of process startup: the two required stages of
startServer, built-in route registration, the two best-effort optional
imports (each tagged with whether its load succeeded), and the
accepting-traffic point, which the program reaches when the module body
finishes and the runtime begins serving the fetch handler of the default
export (index.ts lines 161-164). -/
inductive StartupEvent where
  | connectStorage
  | loadRoutes
  | registerBuiltins
  | acceptingTraffic
  | tryLoadBot (ok : Bool)
  | tryLoadMatchmaker (ok : Bool)
deriving DecidableEq

/-- Whether an event is the bot-subsystem load attempt. -/
def isBotLoad : StartupEvent → Bool
  | .tryLoadBot _ => true
  | _ => false

/-- Whether an event is the matchmaker-subsystem load attempt. -/
def isMatchmakerLoad : StartupEvent → Bool
  | .tryLoadMatchmaker _ => true
  | _ => false

/-- The startup sequence (index.ts lines 91-164): Connect and LoadRoutes
are awaited and abort startup when they fail (none); the built-ins are
then registered; the two optional imports follow, each awaited inside an
empty catch, so a failed load is recorded but never aborts the sequence;
only then does the module body end and the default export begin
accepting traffic. -/
def startup (connectOk loadRoutesOk botOk mmOk : Bool) :
    Option (List StartupEvent) := do
  let _ ← if connectOk then some () else none
  let _ ← if loadRoutesOk then some () else none
  return [StartupEvent.connectStorage, StartupEvent.loadRoutes,
          StartupEvent.registerBuiltins,
          StartupEvent.tryLoadBot botOk, StartupEvent.tryLoadMatchmaker mmOk,
          StartupEvent.acceptingTraffic]

/-- A concrete request carrying no Authorization header but a valid
playerId parameter. -/
def reqNoAuth : Request :=
  ⟨fun _ => none,
   fun n => if n = "playerId" then some "abcd" else none⟩

/-- A concrete request carrying a Bearer Authorization header and a valid
playerId parameter. -/
def reqAuth : Request :=
  ⟨fun n => if n = "Authorization" then some "Bearer token" else none,
   fun n => if n = "playerId" then some "abcd" else none⟩

/-- A concrete request whose CF-Connecting-IP header is present but has
the empty value, while X-Forwarded-For carries an address. -/
def cfEmptyReq : Request :=
  ⟨fun n =>
     if n = "CF-Connecting-IP" then some "" else
     if n = "X-Forwarded-For" then some "5.6.7.8" else none,
   fun _ => none⟩

/-- A concrete request with a non-empty CF-Connecting-IP and some
X-Forwarded-For value. -/
def reqCfA : Request :=
  ⟨fun n =>
     if n = "CF-Connecting-IP" then some "1.2.3.4" else
     if n = "X-Forwarded-For" then some "9.9.9.9" else none,
   fun _ => none⟩

/-- A concrete request with the same CF-Connecting-IP as reqCfA but no
X-Forwarded-For at all. -/
def reqCfB : Request :=
  ⟨fun n => if n = "CF-Connecting-IP" then some "1.2.3.4" else none,
   fun _ => none⟩

/-- A concrete request with no forwarding headers at all. -/
def reqNone : Request := ⟨fun _ => none, fun _ => none⟩

/-! ## Basic lemmas about the store and one admission step -/

theorem storeSet_same (s : Store) (k : String) (v : RateRecord) :
    storeSet s k v k = some v := by
  simp [storeSet]

theorem storeSet_ne (s : Store) (k k' : String) (v : RateRecord)
    (h : k' ≠ k) : storeSet s k v k' = s k' := by
  simp [storeSet, h]

theorem rateLimitCheck_fresh (windowMs maxReq : Nat) (key : String)
    (now : Nat) (s : Store) (h : s key = none) :
    rateLimitCheck windowMs maxReq key now s =
      (none, storeSet s key ⟨1, now + windowMs⟩) := by
  simp [rateLimitCheck, h]

theorem rateLimitCheck_expired (windowMs maxReq : Nat) (key : String)
    (now : Nat) (s : Store) (r : RateRecord) (h : s key = some r)
    (hexp : r.resetTime < now) :
    rateLimitCheck windowMs maxReq key now s =
      (none, storeSet s key ⟨1, now + windowMs⟩) := by
  simp [rateLimitCheck, h, hexp]

theorem rateLimitCheck_incr (windowMs maxReq : Nat) (key : String)
    (now : Nat) (s : Store) (r : RateRecord) (h : s key = some r)
    (hin : ¬ r.resetTime < now) (hc : r.count < maxReq) :
    rateLimitCheck windowMs maxReq key now s =
      (none, storeSet s key ⟨r.count + 1, r.resetTime⟩) := by
  simp [rateLimitCheck, h, hin, Nat.not_le.mpr hc]

theorem rateLimitCheck_reject (windowMs maxReq : Nat) (key : String)
    (now : Nat) (s : Store) (r : RateRecord) (h : s key = some r)
    (hin : ¬ r.resetTime < now) (hc : maxReq ≤ r.count) :
    rateLimitCheck windowMs maxReq key now s = (some tooManyResp, s) := by
  simp [rateLimitCheck, h, hin, hc]

/-! ## Lemmas about request sequences -/

theorem runRequests_nil (windowMs maxReq : Nat) (key : String) (s : Store) :
    runRequests windowMs maxReq key [] s = ([], s) := rfl

theorem runRequests_cons (windowMs maxReq : Nat) (key : String) (t : Nat)
    (ts : List Nat) (s : Store) :
    runRequests windowMs maxReq key (t :: ts) s =
      ((rateLimitCheck windowMs maxReq key t s).1 ::
        (runRequests windowMs maxReq key ts
          (rateLimitCheck windowMs maxReq key t s).2).1,
       (runRequests windowMs maxReq key ts
          (rateLimitCheck windowMs maxReq key t s).2).2) := rfl

/-- Every request of a batch arriving while the window of the current
record is still open, with enough budget left, is admitted; the count
grows by the batch size and the window end does not move. -/
theorem runRequests_within (windowMs maxReq : Nat) (key : String) :
    ∀ (ts : List Nat) (c R : Nat) (s : Store),
      s key = some ⟨c, R⟩ →
      (∀ u ∈ ts, u ≤ R) →
      c + ts.length ≤ maxReq →
      (runRequests windowMs maxReq key ts s).1 =
        List.replicate ts.length none ∧
      (runRequests windowMs maxReq key ts s).2 key =
        some ⟨c + ts.length, R⟩ := by
  intro ts
  induction ts with
  | nil =>
      intro c R s hs _ _
      simpa [runRequests] using hs
  | cons t ts ih =>
      intro c R s hs hts hc
      simp only [List.length_cons] at hc
      have ht : t ≤ R := hts t (List.mem_cons_self t ts)
      have hnin : ¬ ((⟨c, R⟩ : RateRecord).resetTime < t) := Nat.not_lt.mpr ht
      have hcM : c < maxReq := by omega
      have hstep := rateLimitCheck_incr windowMs maxReq key t s ⟨c, R⟩ hs hnin hcM
      have hs2 : (storeSet s key ⟨c + 1, R⟩) key = some ⟨c + 1, R⟩ :=
        storeSet_same s key ⟨c + 1, R⟩
      have hrec := ih (c + 1) R (storeSet s key ⟨c + 1, R⟩) hs2
        (fun u hu => hts u (List.mem_cons_of_mem t hu)) (by omega)
      rw [runRequests_cons, hstep]
      refine ⟨?_, ?_⟩
      · simp only [List.length_cons, List.replicate_succ]
        exact congrArg (none :: ·) hrec.1
      · have : c + (ts.length + 1) = c + 1 + ts.length := by omega
        rw [List.length_cons, this]
        exact hrec.2

/-- Splitting a request sequence: the second batch starts from the store
the first batch produced. -/
theorem runRequests_append (windowMs maxReq : Nat) (key : String)
    (xs ys : List Nat) :
    ∀ s : Store,
      runRequests windowMs maxReq key (xs ++ ys) s =
        ((runRequests windowMs maxReq key xs s).1 ++
           (runRequests windowMs maxReq key ys
             (runRequests windowMs maxReq key xs s).2).1,
         (runRequests windowMs maxReq key ys
             (runRequests windowMs maxReq key xs s).2).2) := by
  induction xs with
  | nil => intro s; simp [runRequests]
  | cons x xs ih =>
      intro s
      simp only [List.cons_append, runRequests_cons, ih]

/-! ## The claims -/

/-- C1: with the default configuration (window 15 minutes, max 100), a
client whose 101 requests all arrive within one window is admitted on
requests 1 through 100 and rejected on request 101 with the 429
too-many-requests response; and in general a client issuing at most
maxReq requests within one window is admitted on every one of them. -/
theorem c1_rate_limit_101st_rejected :
    (∀ (key : String) (t : Nat) (rs : List Nat) (u : Nat) (s : Store),
       s key = none →
       rs.length = 99 →
       (∀ v ∈ rs, v ≤ t + defaultWindowMs) →
       u ≤ t + defaultWindowMs →
       (runRequests defaultWindowMs defaultMax key (t :: (rs ++ [u])) s).1 =
         List.replicate 100 none ++ [some tooManyResp]) ∧
    (∀ (windowMs maxReq : Nat) (key : String) (t : Nat) (rest : List Nat)
       (s : Store),
       s key = none →
       (∀ v ∈ rest, v ≤ t + windowMs) →
       rest.length + 1 ≤ maxReq →
       (runRequests windowMs maxReq key (t :: rest) s).1 =
         List.replicate (rest.length + 1) none) := by
  constructor
  · intro key t rs u s hfresh hlen hrs hu
    have h1 := rateLimitCheck_fresh defaultWindowMs defaultMax key t s hfresh
    have hA := runRequests_within defaultWindowMs defaultMax key rs 1
      (t + defaultWindowMs) (storeSet s key ⟨1, t + defaultWindowMs⟩)
      (storeSet_same _ _ _) hrs (by rw [hlen]; decide)
    have hrec : (runRequests defaultWindowMs defaultMax key rs
        (storeSet s key ⟨1, t + defaultWindowMs⟩)).2 key =
        some ⟨100, t + defaultWindowMs⟩ := by
      rw [hA.2, hlen]
    have hrej := rateLimitCheck_reject defaultWindowMs defaultMax key u _
      ⟨100, t + defaultWindowMs⟩ hrec (Nat.not_lt.mpr hu) (Nat.le_refl 100)
    simp only [runRequests_cons, h1, runRequests_append, hrej, hA.1, hlen,
      runRequests_nil]
    simp [List.replicate_succ]
  · intro windowMs maxReq key t rest s hfresh hrest hbudget
    have h1 := rateLimitCheck_fresh windowMs maxReq key t s hfresh
    have hA := runRequests_within windowMs maxReq key rest 1 (t + windowMs)
      (storeSet s key ⟨1, t + windowMs⟩) (storeSet_same _ _ _) hrest (by omega)
    simp only [runRequests_cons, h1, hA.1]
    simp [List.replicate_succ]

/-- C1 witness: the concrete scenario, 101 requests of one client at time
0 against the empty store, and the general part at 100 requests. -/
theorem c1_witness :
    (runRequests defaultWindowMs defaultMax "1.2.3.4"
        (0 :: (List.replicate 99 0 ++ [0])) emptyStore).1 =
      List.replicate 100 none ++ [some tooManyResp] ∧
    (runRequests defaultWindowMs defaultMax "1.2.3.4"
        (0 :: List.replicate 99 0) emptyStore).1 =
      List.replicate ((List.replicate 99 0).length + 1) none :=
  ⟨c1_rate_limit_101st_rejected.1 "1.2.3.4" 0 (List.replicate 99 0) 0
     emptyStore rfl (by simp)
     (fun v hv => by rw [List.eq_of_mem_replicate hv]; exact Nat.zero_le _)
     (Nat.zero_le _),
   c1_rate_limit_101st_rejected.2 defaultWindowMs defaultMax "1.2.3.4" 0
     (List.replicate 99 0) emptyStore rfl
     (fun v hv => by rw [List.eq_of_mem_replicate hv]; exact Nat.zero_le _)
     (by decide)⟩

/-- C2: when no record exists for the key or the current time is past the
record's reset time, the limiter installs a record with count 1 and reset
time now plus the window, and admits the request; the stored counter is
then 1. -/
theorem c2_window_reset (windowMs maxReq : Nat) (key : String) (now : Nat)
    (s : Store)
    (h : s key = none ∨ ∃ r, s key = some r ∧ r.resetTime < now) :
    rateLimitCheck windowMs maxReq key now s =
      (none, storeSet s key ⟨1, now + windowMs⟩) ∧
    (rateLimitCheck windowMs maxReq key now s).2 key =
      some ⟨1, now + windowMs⟩ := by
  have heq : rateLimitCheck windowMs maxReq key now s =
      (none, storeSet s key ⟨1, now + windowMs⟩) := by
    rcases h with h | ⟨r, hr, hexp⟩
    · exact rateLimitCheck_fresh _ _ _ _ _ h
    · exact rateLimitCheck_expired _ _ _ _ _ _ hr hexp
  exact ⟨heq, by rw [heq]; exact storeSet_same _ _ _⟩

/-- C2 witness: a record whose window expired at time 10 is replaced at
time 11 by a fresh count-1 record and the request is admitted. -/
theorem c2_witness :
    rateLimitCheck defaultWindowMs defaultMax "a" 11
        (storeSet emptyStore "a" ⟨5, 10⟩) =
      (none, storeSet (storeSet emptyStore "a" ⟨5, 10⟩) "a"
        ⟨1, 11 + defaultWindowMs⟩) ∧
    (rateLimitCheck defaultWindowMs defaultMax "a" 11
        (storeSet emptyStore "a" ⟨5, 10⟩)).2 "a" =
      some ⟨1, 11 + defaultWindowMs⟩ :=
  c2_window_reset defaultWindowMs defaultMax "a" 11
    (storeSet emptyStore "a" ⟨5, 10⟩)
    (Or.inr ⟨⟨5, 10⟩, storeSet_same _ _ _, by decide⟩)

/-- C9: a rejected request leaves the whole store, in particular the
rejected client's record, exactly as it was; and no admission decision
for one key ever changes the record of a different key. -/
theorem c9_reject_frame :
    (∀ (windowMs maxReq : Nat) (key : String) (now : Nat) (s : Store)
       (r : RateRecord),
       s key = some r → ¬ r.resetTime < now → maxReq ≤ r.count →
       rateLimitCheck windowMs maxReq key now s = (some tooManyResp, s)) ∧
    (∀ (windowMs maxReq : Nat) (key other : String) (now : Nat) (s : Store),
       other ≠ key →
       (rateLimitCheck windowMs maxReq key now s).2 other = s other) := by
  refine ⟨fun W M key now s r h hin hc =>
    rateLimitCheck_reject W M key now s r h hin hc, ?_⟩
  intro W M key other now s hne
  cases h : s key with
  | none =>
      rw [rateLimitCheck_fresh _ _ _ _ _ h]
      exact storeSet_ne _ _ _ _ hne
  | some r =>
      by_cases h1 : r.resetTime < now
      · rw [rateLimitCheck_expired _ _ _ _ _ _ h h1]
        exact storeSet_ne _ _ _ _ hne
      · by_cases h2 : M ≤ r.count
        · rw [rateLimitCheck_reject _ _ _ _ _ _ h h1 h2]
        · rw [rateLimitCheck_incr _ _ _ _ _ _ h h1 (Nat.lt_of_not_le h2)]
          exact storeSet_ne _ _ _ _ hne

/-- C9 witness: a full record at its window edge is rejected with the
store untouched, and the record of a second key is unaffected. -/
theorem c9_witness :
    rateLimitCheck defaultWindowMs defaultMax "a" 50
        (storeSet emptyStore "a" ⟨100, 50⟩) =
      (some tooManyResp, storeSet emptyStore "a" ⟨100, 50⟩) ∧
    (rateLimitCheck defaultWindowMs defaultMax "a" 50
        (storeSet emptyStore "a" ⟨100, 50⟩)).2 "b" =
      storeSet emptyStore "a" ⟨100, 50⟩ "b" :=
  ⟨c9_reject_frame.1 defaultWindowMs defaultMax "a" 50
     (storeSet emptyStore "a" ⟨100, 50⟩) ⟨100, 50⟩
     (storeSet_same _ _ _) (by decide) (by decide),
   c9_reject_frame.2 defaultWindowMs defaultMax "a" "b" 50
     (storeSet emptyStore "a" ⟨100, 50⟩) (by decide)⟩

/-- C3: a structured HTTPException is rendered by app.onError as the
envelope with its own status and message; every other failure is
rendered as a 500 with the fixed generic message, independently of the
failure's detail, which therefore never reaches the body; and every
envelope carries the timestamp taken at response construction. -/
theorem c3_error_normalizer :
    (∀ (ex : HTTPException) (now : String),
       onError (.http ex) now =
         ⟨ex.status,
          .obj [("error", .str ex.message), ("status", .num ex.status),
                ("timestamp", .str now)], []⟩) ∧
    (∀ (d now : String),
       onError (.other d) now =
         ⟨500,
          .obj [("error", .str "Internal server error"),
                ("status", .num 500), ("timestamp", .str now)], []⟩) ∧
    (∀ (d e now : String), onError (.other d) now = onError (.other e) now) ∧
    (∀ (f : AppFailure) (now : String),
       bodyField (onError f now).body "timestamp" = some (.str now)) := by
  refine ⟨fun ex now => rfl, fun d now => rfl, fun d e now => rfl,
    fun f now => ?_⟩
  cases f <;> rfl

/-- C4: a stats-route request whose Authorization header is absent, or
present without the Bearer-and-space prefix, is answered 401 with the
fixed unauthorized body whatever its playerId parameter is; and a
correctly prefixed header is sufficient to reach the handler behind the
gate. -/
theorem c4_auth_gate :
    (∀ (req : Request) (now : String),
       (req.headerOf "Authorization" = none ∨
        (∃ a, req.headerOf "Authorization" = some a ∧
          strStartsWith a "Bearer " = false)) →
       statsRoute req now = unauthorizedResp) ∧
    (∀ (req : Request) (now a : String),
       req.headerOf "Authorization" = some a →
       strStartsWith a "Bearer " = true →
       statsRoute req now = statsAfterGate (req.paramOf "playerId") now) := by
  constructor
  · intro req now h
    rcases h with h | ⟨a, ha, hs⟩
    · simp [statsRoute, requireAuthPass, h]
    · simp [statsRoute, requireAuthPass, ha, hs]
  · intro req now a ha hs
    simp [statsRoute, requireAuthPass, ha, hs]

/-- C4 witness: the request without an Authorization header is rejected
401; the request with a Bearer header reaches the gated handler. -/
theorem c4_witness :
    statsRoute reqNoAuth "T" = unauthorizedResp ∧
    statsRoute reqAuth "T" = statsAfterGate (reqAuth.paramOf "playerId") "T" :=
  ⟨c4_auth_gate.1 reqNoAuth "T" (Or.inl rfl),
   c4_auth_gate.2 reqAuth "T" "Bearer token" rfl (by decide)⟩

/-- C5: behind the auth gate, a playerId shorter than 3 characters makes
the stats handler throw the structured 400 invalid-player-ID error, and
a playerId of length at least 3 yields a 200 response echoing the id
unchanged. -/
theorem c5_player_id (pid now : String) :
    (pid.length < 3 →
       statsHandler (some pid) now = .error ⟨400, "Invalid player ID"⟩) ∧
    (3 ≤ pid.length →
       statsHandler (some pid) now =
         .ok ⟨200,
           .obj [("playerId", .str pid),
                 ("stats", .obj [("wins", .num 0), ("kills", .num 0),
                                 ("matches", .num 0)]),
                 ("lastUpdated", .str now)], []⟩) := by
  constructor
  · intro h
    by_cases he : pid.isEmpty
    · simp [statsHandler, he]
    · simp [statsHandler, he, h]
  · intro h
    have hne : ¬ pid.isEmpty = true := by
      intro he
      have hp : pid = "" := (String.isEmpty_iff pid).mp he
      subst hp
      exact absurd h (by decide)
    simp [statsHandler, hne, Nat.not_lt.mpr h]

/-- C5 witness: the two-character id ab is rejected 400 and the
four-character id abcd is echoed back in a 200. -/
theorem c5_witness :
    statsHandler (some "ab") "T" = .error ⟨400, "Invalid player ID"⟩ ∧
    statsHandler (some "abcd") "T" =
      .ok ⟨200,
        .obj [("playerId", .str "abcd"),
              ("stats", .obj [("wins", .num 0), ("kills", .num 0),
                              ("matches", .num 0)]),
              ("lastUpdated", .str "T")], []⟩ :=
  ⟨(c5_player_id "ab" "T").1 (by decide), (c5_player_id "abcd" "T").2 (by decide)⟩

/-- C6: when GenerateShop yields nothing the catalog route answers with
the structured 500 envelope carrying the fixed generation-failure
message; when it yields data the route answers 200 with the data
verbatim plus the Cache-Control and X-Content-Type-Options headers. -/
theorem c6_catalog_route :
    (∀ now : String,
       catalogRoute none now =
         ⟨500,
          .obj [("error", .str "Failed to generate shop catalog"),
                ("status", .num 500), ("timestamp", .str now)], []⟩) ∧
    (∀ (data : JValue) (now : String),
       catalogRoute (some data) now =
         ⟨200, data,
          [("Cache-Control", "public, max-age=300"),
           ("X-Content-Type-Options", "nosniff")]⟩) :=
  ⟨fun _ => rfl, fun _ _ => rfl⟩

/-- C7: both branches of app.onError produce a body whose fields are
exactly error, status and timestamp, while the rate limiter's 429 and
the auth gate's 401 carry only the error field. -/
theorem c7_envelope_shapes :
    (∀ (ex : HTTPException) (now : String),
       bodyKeys (onError (.http ex) now).body = ["error", "status", "timestamp"]) ∧
    (∀ (d now : String),
       bodyKeys (onError (.other d) now).body = ["error", "status", "timestamp"]) ∧
    (tooManyResp.status = 429 ∧ bodyKeys tooManyResp.body = ["error"]) ∧
    (unauthorizedResp.status = 401 ∧ bodyKeys unauthorizedResp.body = ["error"]) :=
  ⟨fun _ _ => rfl, fun _ _ => rfl, ⟨rfl, rfl⟩, ⟨rfl, rfl⟩⟩

/-- C8 counterexample: in the startup sequence of the code both optional
load attempts come strictly before the accepting-traffic point, because
the module body awaits the two import attempts before the default export
is evaluated; so neither load is attempted after the server begins
accepting traffic. -/
theorem c8_counterexample :
    ∃ evs, startup true true true true = some evs ∧
      evs.indexOf (StartupEvent.tryLoadBot true) <
        evs.indexOf StartupEvent.acceptingTraffic ∧
      evs.indexOf (StartupEvent.tryLoadMatchmaker true) <
        evs.indexOf StartupEvent.acceptingTraffic ∧
      ¬ evs.indexOf StartupEvent.acceptingTraffic <
          evs.indexOf (StartupEvent.tryLoadBot true) ∧
      ¬ evs.indexOf StartupEvent.acceptingTraffic <
          evs.indexOf (StartupEvent.tryLoadMatchmaker true) :=
  ⟨_, rfl, by decide, by decide, by decide, by decide⟩

/-- C8 (amended): with both required stages succeeding, startup reaches
the accepting-traffic point whatever the two optional loads do; each
optional load is attempted exactly once in the whole sequence, strictly
before the accepting-traffic point (the awaited import attempts precede
the evaluation of the default export), a failed load never prevents the
accepting-traffic point, and the health route answers 200 regardless. -/
theorem c8_optional_subsystems (botOk mmOk : Bool) (now : String) :
    ∃ evs, startup true true botOk mmOk = some evs ∧
      evs.countP isBotLoad = 1 ∧
      evs.countP isMatchmakerLoad = 1 ∧
      evs.indexOf (StartupEvent.tryLoadBot botOk) <
        evs.indexOf StartupEvent.acceptingTraffic ∧
      evs.indexOf (StartupEvent.tryLoadMatchmaker mmOk) <
        evs.indexOf StartupEvent.acceptingTraffic ∧
      StartupEvent.acceptingTraffic ∈ evs ∧
      (healthHandler now).status = 200 := by
  refine ⟨_, rfl, ?_, ?_, ?_, ?_, ?_, rfl⟩
  all_goals cases botOk <;> cases mmOk <;> decide

/-- The client key is the CF-Connecting-IP value whenever that header is
present with a non-empty value. -/
theorem clientKey_cf (req : Request) (s : String)
    (h : req.headerOf "CF-Connecting-IP" = some s) (hne : s ≠ "") :
    clientKey req = s := by
  simp [clientKey, h, jsOrStr, String.isEmpty_iff, hne]

/-- C10 counterexample: on a request whose CF-Connecting-IP header is
present (with the empty value) the client key is not taken from that
header: the JavaScript or-else chain treats the empty string as falsy
and falls through to X-Forwarded-For. -/
theorem c10_counterexample :
    cfEmptyReq.headerOf "CF-Connecting-IP" = some "" ∧
    clientKey cfEmptyReq = "5.6.7.8" ∧
    ("5.6.7.8" : String) ≠ "" := by
  refine ⟨rfl, by decide, by decide⟩

/-- C10 (amended): the client key is the CF-Connecting-IP value when that
header is present and non-empty, else the X-Forwarded-For value when
that one is present and non-empty, else the literal anonymous; hence two
requests agreeing on a present, non-empty CF-Connecting-IP compute the
same key and receive the same admission outcome against the same store,
whatever their X-Forwarded-For headers are. -/
theorem c10_client_key :
    (∀ (req : Request) (s : String),
       req.headerOf "CF-Connecting-IP" = some s → s ≠ "" →
       clientKey req = s) ∧
    (∀ (req : Request) (t : String),
       (req.headerOf "CF-Connecting-IP" = none ∨
        req.headerOf "CF-Connecting-IP" = some "") →
       req.headerOf "X-Forwarded-For" = some t → t ≠ "" →
       clientKey req = t) ∧
    (∀ req : Request,
       (req.headerOf "CF-Connecting-IP" = none ∨
        req.headerOf "CF-Connecting-IP" = some "") →
       (req.headerOf "X-Forwarded-For" = none ∨
        req.headerOf "X-Forwarded-For" = some "") →
       clientKey req = "anonymous") ∧
    (∀ (r₁ r₂ : Request) (s : String) (windowMs maxReq now : Nat)
       (store : Store),
       r₁.headerOf "CF-Connecting-IP" = some s →
       r₂.headerOf "CF-Connecting-IP" = some s → s ≠ "" →
       clientKey r₁ = clientKey r₂ ∧
       rateLimitMw windowMs maxReq r₁ now store =
         rateLimitMw windowMs maxReq r₂ now store) := by
  refine ⟨clientKey_cf, ?_, ?_, ?_⟩
  · intro req t hcf hx hne
    rcases hcf with h | h <;>
      simp [clientKey, h, hx, jsOrStr, String.isEmpty_iff, hne]
  · intro req hcf hx
    rcases hcf with h | h <;> rcases hx with h2 | h2 <;>
      simp [clientKey, h, h2, jsOrStr, String.isEmpty_iff]
  · intro r₁ r₂ s windowMs maxReq now store h1 h2 hne
    have k1 := clientKey_cf r₁ s h1 hne
    have k2 := clientKey_cf r₂ s h2 hne
    refine ⟨k1.trans k2.symm, ?_⟩
    unfold rateLimitMw
    rw [k1, k2]

/-- C10 witness: the amended selection rule and the hyperproperty at
concrete requests: a non-empty CF-Connecting-IP wins, an empty one falls
through to X-Forwarded-For, no headers give the anonymous bucket, and
two requests sharing a CF-Connecting-IP are admitted identically. -/
theorem c10_witness :
    clientKey reqCfA = "1.2.3.4" ∧
    clientKey cfEmptyReq = "5.6.7.8" ∧
    clientKey reqNone = "anonymous" ∧
    (clientKey reqCfA = clientKey reqCfB ∧
     rateLimitMw defaultWindowMs defaultMax reqCfA 0 emptyStore =
       rateLimitMw defaultWindowMs defaultMax reqCfB 0 emptyStore) :=
  ⟨c10_client_key.1 reqCfA "1.2.3.4" rfl (by decide),
   c10_client_key.2.1 cfEmptyReq "5.6.7.8" (Or.inr rfl) rfl (by decide),
   c10_client_key.2.2.1 reqNone (Or.inl rfl) (Or.inl rfl),
   c10_client_key.2.2.2 reqCfA reqCfB "1.2.3.4" defaultWindowMs defaultMax 0
     emptyStore rfl rfl (by decide)⟩

end UB
